import Mathlib

/-!
Shallow embedding of the tarpit virtual filesystem (src/fs/mod.rs and
src/fs/inode.rs) and verification of its specification claims.

Machine integers are modelled as `Nat` with explicit `% 2^32` / `% 2^64`
where the source casts; Rust panics (failed `assert!`, `unwrap()` of `None`,
out-of-bounds slicing) are modelled as an explicit `panic` outcome.
-/

namespace Tarpit

/-- `pub const MAX_DIRS: u64 = (1 << 32) - 1;` -/
def MAX_DIRS : Nat := 2 ^ 32 - 1

/-- `pub const MAX_FILES: u64 = (1 << 32) - 1;` -/
def MAX_FILES : Nat := 2 ^ 32 - 1

/-- POSIX error codes replied by the handlers (`libc::{EISDIR, ENOENT, ENOTDIR}`). -/
inductive Errno where
  | ENOENT
  | EISDIR
  | ENOTDIR
deriving DecidableEq, Repr

/-- `fuser::FileType`, restricted to the variants the source uses. -/
inductive FileType where
  | Directory
  | RegularFile
deriving DecidableEq, Repr

/-- `pub struct DirInode(u32);` — the field is a `u32`; every value constructed
by the code keeps `num < 2^32`. -/
structure DirInode where
  num : Nat
deriving DecidableEq, Repr

/-- `pub struct FileInode(DirInode, u32);` -/
structure FileInode where
  parent : DirInode
  num : Nat
deriving DecidableEq, Repr

/-- `pub enum Inode { Dir(DirInode), File(FileInode) }` -/
inductive Inode where
  | dir (d : DirInode)
  | file (f : FileInode)
deriving DecidableEq, Repr

/-- `impl From<DirInode> for u64`: `inode.0 as u64`. -/
def DirInode.toU64 (d : DirInode) : Nat := d.num

/-- `impl From<FileInode> for u64`:
`((file_num as u64) << 32) | (dir_num as u64)`.  The halves are disjoint
`u32` values (the low one `< 2^32`), so the bitwise or is addition. -/
def FileInode.toU64 (f : FileInode) : Nat := f.num * 2 ^ 32 + f.parent.num

/-- `DirInode::from_number`: `None` if `num > MAX_DIRS` (models the failed
`try_into` path being unreachable after the bound check). -/
def DirInode.from_number (num : Nat) : Option DirInode :=
  if num > MAX_DIRS then none else some ⟨num⟩

/-- `FileInode::from_number`. -/
def FileInode.from_number (parent : DirInode) (num : Nat) : Option FileInode :=
  if num > MAX_FILES then none else some ⟨parent, num⟩

/-- `Inode::from_ino_u64`.  `ino & 0xFFFF_FFFF` is `ino % 2^32`;
`(ino >> 32) as u32` is `ino / 2^32 % 2^32`.  The `assert!(dir_number != 0)`
failure (a panic) is modelled as `none`. -/
def Inode.from_ino_u64 (ino : Nat) : Option Inode :=
  if ino / 2 ^ 32 % 2 ^ 32 = 0 then
    if ino % 2 ^ 32 = 0 then none
    else some (Inode.dir ⟨ino % 2 ^ 32⟩)
  else some (Inode.file ⟨⟨ino % 2 ^ 32⟩, ino / 2 ^ 32 % 2 ^ 32⟩)

/-- The fixed timestamp `UNIX_EPOCH + 1751364000s`, as seconds. -/
def EPOCH : Nat := 1751364000

/-- `fuser::FileAttr`, with `SystemTime` fields as seconds since the epoch. -/
structure FileAttr where
  ino : Nat
  size : Nat
  blocks : Nat
  atime : Nat
  mtime : Nat
  ctime : Nat
  crtime : Nat
  kind : FileType
  perm : Nat
  nlink : Nat
  uid : Nat
  gid : Nat
  rdev : Nat
  flags : Nat
  blksize : Nat
deriving DecidableEq, Repr

/-- `fn dir_attr(inode: DirInode) -> FileAttr`. -/
def dir_attr (inode : DirInode) : FileAttr where
  ino := inode.toU64
  size := 0
  blocks := 0
  atime := EPOCH
  mtime := EPOCH
  ctime := EPOCH
  crtime := EPOCH
  kind := FileType.Directory
  perm := 0o755
  nlink := 2
  uid := 501
  gid := 20
  rdev := 0
  flags := 0
  blksize := 512

/-- `fn file_attr(inode: FileInode) -> FileAttr`. -/
def file_attr (inode : FileInode) : FileAttr where
  ino := inode.toU64
  size := 13
  blocks := 1
  atime := EPOCH
  mtime := EPOCH
  ctime := EPOCH
  crtime := EPOCH
  kind := FileType.RegularFile
  perm := 0o644
  nlink := 1
  uid := 501
  gid := 20
  rdev := 0
  flags := 0
  blksize := 512

/-- `const HELLO_TXT_CONTENT: &str = "Hello World!\n";` as bytes/chars. -/
def HELLO_TXT_CONTENT : List Char := "Hello World!\n".toList

/-- Digit-emission loop for decimal rendering; the fuel argument only bounds
the recursion depth and is irrelevant once large enough. -/
def renderLoop : Nat → Nat → List Char → List Char
  | 0, _, acc => acc
  | fuel + 1, n, acc =>
    if n < 10 then Nat.digitChar n :: acc
    else renderLoop fuel (n / 10) (Nat.digitChar (n % 10) :: acc)

/-- Decimal rendering of a `Nat`, most significant digit first: models how
`format!("{num}")` renders the number. -/
def renderNat (n : Nat) : List Char := renderLoop (n + 1) n []

/-- Zero padding to minimum width 3: the `:03` format modifier. -/
def pad3 (s : List Char) : List Char :=
  List.replicate (3 - s.length) '0' ++ s

/-- `fn dir_name(num: u64) -> String { format!("pit{num:03}") }` -/
def dir_name (num : Nat) : List Char :=
  'p' :: 'i' :: 't' :: pad3 (renderNat num)

/-- `char` to decimal digit value, `none` for non-digits (ASCII `0`-`9`). -/
def digitVal (c : Char) : Option Nat :=
  if 48 ≤ c.toNat ∧ c.toNat ≤ 57 then some (c.toNat - 48) else none

/-- The digit-accumulation loop of `u64::from_str`, with the checked-overflow
failure (`value > u64::MAX`) returning `none`. -/
def parseDigits : List Char → Nat → Option Nat
  | [], acc => some acc
  | c :: rest, acc =>
    match digitVal c with
    | none => none
    | some d =>
      if acc * 10 + d < 2 ^ 64 then parseDigits rest (acc * 10 + d) else none

/-- `str::parse::<u64>()`: an optional leading `+` sign followed by one or
more ASCII digits, value below `2^64`. -/
def parse_u64 (s : List Char) : Option Nat :=
  match s with
  | [] => none
  | c :: rest =>
    if c = '+' then (if rest = [] then none else parseDigits rest 0)
    else parseDigits (c :: rest) 0

/-- `name.strip_prefix("pit")`. -/
def strip_pit (s : List Char) : Option (List Char) :=
  match s with
  | a :: b :: c :: rest =>
    if a = 'p' ∧ b = 'i' ∧ c = 't' then some rest else none
  | _ => none

/-- `pub struct TarpitFs { num_dirs: u64, num_files: u64 }` -/
structure TarpitFs where
  num_dirs : Nat
  num_files : Nat
deriving DecidableEq, Repr

/-- `pub struct TarpitBuilder { num_dirs: u64, num_files: u64 }` -/
structure TarpitBuilder where
  num_dirs : Nat
  num_files : Nat
deriving DecidableEq, Repr

/-- `impl Default for TarpitBuilder`. -/
def TarpitBuilder.default : TarpitBuilder := ⟨10, 10⟩

/-- `TarpitBuilder::dirs`; the `panic!` on an oversized count is `none`. -/
def TarpitBuilder.dirs (b : TarpitBuilder) (num_dirs : Nat) : Option TarpitBuilder :=
  if num_dirs > MAX_DIRS then none else some { b with num_dirs := num_dirs }

/-- `TarpitBuilder::files`; the `panic!` on an oversized count is `none`. -/
def TarpitBuilder.files (b : TarpitBuilder) (num_files : Nat) : Option TarpitBuilder :=
  if num_files > MAX_FILES then none else some { b with num_files := num_files }

/-- `TarpitBuilder::build`. -/
def TarpitBuilder.build (b : TarpitBuilder) : TarpitFs :=
  ⟨b.num_dirs, b.num_files⟩

/-- `TarpitFs::dir_num_to_inode`. -/
def TarpitFs.dir_num_to_inode (fs : TarpitFs) (num : Nat) : Option DirInode :=
  if num ≤ fs.num_dirs then DirInode.from_number (num + 1) else none

/-- `TarpitFs::dir_name_to_inode`. -/
def TarpitFs.dir_name_to_inode (fs : TarpitFs) (name : List Char) : Option DirInode :=
  (strip_pit name).bind fun rest =>
    (parse_u64 rest).bind fun num => fs.dir_num_to_inode num

/-- `TarpitFs::dir_num_to_dirent`; the `.unwrap()` panic is `none`. -/
def TarpitFs.dir_num_to_dirent (fs : TarpitFs) (num : Nat) :
    Option (DirInode × FileType × List Char) :=
  (fs.dir_num_to_inode num).map fun ino => (ino, FileType.Directory, dir_name num)

/-- `TarpitFs::inode_attr`. -/
def TarpitFs.inode_attr (fs : TarpitFs) (inode : Inode) : Option FileAttr :=
  match inode with
  | Inode.dir dir_inode =>
    if dir_inode.num ≤ fs.num_dirs then some (dir_attr dir_inode) else none
  | Inode.file file_inode =>
    if file_inode.num ≤ fs.num_files then some (file_attr file_inode) else none

/-- Reply of `lookup` (`ReplyEntry`): entry with attributes, error code, or a
panic of the handler. -/
inductive EntryReply where
  | entry (attr : FileAttr)
  | error (e : Errno)
  | panic
deriving DecidableEq, Repr

/-- Reply of `getattr` (`ReplyAttr`). -/
inductive AttrReply where
  | attr (a : FileAttr)
  | error (e : Errno)
  | panic
deriving DecidableEq, Repr

/-- Reply of `read` (`ReplyData`). -/
inductive ReadReply where
  | data (bytes : List Char)
  | error (e : Errno)
  | panic
deriving DecidableEq, Repr

/-- Reply of `readdir` (`ReplyDirectory`): the emitted entries are
`(ino, next-offset token, kind, name)` tuples. -/
inductive DirReply where
  | ok (entries : List (Nat × Int × FileType × List Char))
  | error (e : Errno)
  | panic
deriving DecidableEq, Repr

/-- `offset as usize` for an `i64` offset on a 64-bit target: two's-complement
reinterpretation. -/
def i64_as_usize (x : Int) : Nat := (x % 2 ^ 64).toNat

/-- `Filesystem::lookup` for `TarpitFs`. -/
def TarpitFs.lookup (fs : TarpitFs) (parent : Nat) (name : List Char) : EntryReply :=
  if parent = 1 then
    match fs.dir_name_to_inode name with
    | some inode => EntryReply.entry (dir_attr inode)
    | none => EntryReply.error Errno.ENOENT
  else
    match Inode.from_ino_u64 parent with
    | none => EntryReply.panic
    | some (Inode.file _) => EntryReply.error Errno.ENOENT
    | some (Inode.dir parent_inode) =>
      if parent_inode.num > fs.num_dirs + 1 then EntryReply.error Errno.ENOENT
      else if name = "hello.txt".toList then
        match FileInode.from_number parent_inode 2 with
        | some file => EntryReply.entry (file_attr file)
        | none => EntryReply.panic
      else EntryReply.error Errno.ENOENT

/-- `Filesystem::getattr` for `TarpitFs`. -/
def TarpitFs.getattr (fs : TarpitFs) (ino : Nat) : AttrReply :=
  match Inode.from_ino_u64 ino with
  | none => AttrReply.panic
  | some inode =>
    match fs.inode_attr inode with
    | some attr => AttrReply.attr attr
    | none => AttrReply.error Errno.ENOENT

/-- `Filesystem::read` for `TarpitFs`.
`&HELLO_TXT_CONTENT.as_bytes()[offset as usize..]` panics when the start
index exceeds the length (13). -/
def TarpitFs.read (_fs : TarpitFs) (ino : Nat) (offset : Int) : ReadReply :=
  match Inode.from_ino_u64 ino with
  | none => ReadReply.panic
  | some (Inode.dir _) => ReadReply.error Errno.EISDIR
  | some (Inode.file file_inode) =>
    if file_inode.num = 2 then
      if i64_as_usize offset ≤ HELLO_TXT_CONTENT.length then
        ReadReply.data (HELLO_TXT_CONTENT.drop (i64_as_usize offset))
      else ReadReply.panic
    else ReadReply.error Errno.ENOENT

/-- Rust range `a..b` as a list. -/
def rustRange (a b : Nat) : List Nat :=
  (List.range (b - a)).map (fun i => a + i)

/-- Evaluate an option-producing function over a list in order, stopping at
the first `none`: models an iterator whose body can panic (`unwrap`). -/
def optMap {α β : Type} (f : α → Option β) : List α → Option (List β)
  | [] => some []
  | a :: as =>
    match f a with
    | none => none
    | some b => (optMap f as).map (fun bs => b :: bs)

/-- The full root entry list built by `readdir` for `dir_num == 1`:
`.` and `..` (both inode 1) followed by
`(1..num_dirs+1).map(dir_num_to_dirent)`, converting each `DirInode` to its
`u64`.  `none` models the `unwrap` panic inside `dir_num_to_dirent`. -/
def TarpitFs.root_entries (fs : TarpitFs) : Option (List (Nat × FileType × List Char)) :=
  (optMap (fun num => (fs.dir_num_to_dirent num).map
      (fun e => (DirInode.toU64 e.1, e.2.1, e.2.2)))
    (rustRange 1 (fs.num_dirs + 1))).map fun subdirs =>
      (1, FileType.Directory, ".".toList) ::
      (1, FileType.Directory, "..".toList) :: subdirs

/-- The emission loop of `readdir`:
`entries.into_iter().enumerate().skip(offset as usize)`, each entry paired
with `(i + 1) as i64` as the resumption token (the reply buffer is modelled
as never filling up). -/
def emitFrom (entries : List (Nat × FileType × List Char)) (offset : Int) :
    List (Nat × Int × FileType × List Char) :=
  (entries.enum.drop (i64_as_usize offset)).map
    (fun p => (p.2.1, ((p.1 + 1 : Nat) : Int), p.2.2.1, p.2.2.2))

/-- `Filesystem::readdir` for `TarpitFs`.  The deliberate 50ms
`thread::sleep` between building and emitting the entries is a pure no-op
here. -/
def TarpitFs.readdir (fs : TarpitFs) (ino : Nat) (offset : Int) : DirReply :=
  match Inode.from_ino_u64 ino with
  | none => DirReply.panic
  | some (Inode.file _) => DirReply.error Errno.ENOTDIR
  | some (Inode.dir dir_inode) =>
    if dir_inode.num = 1 then
      match fs.root_entries with
      | none => DirReply.panic
      | some entries => DirReply.ok (emitFrom entries offset)
    else if dir_inode.num ≤ fs.num_dirs + 1 then
      match FileInode.from_number dir_inode 2 with
      | none => DirReply.panic
      | some fi =>
        DirReply.ok (emitFrom
          [(ino, FileType.Directory, ".".toList),
           (1, FileType.Directory, "..".toList),
           (fi.toU64, FileType.RegularFile, "hello.txt".toList)] offset)
    else DirReply.error Errno.ENOENT

theorem two_pow_32 : (2 : Nat) ^ 32 = 4294967296 := by norm_num

theorem MAX_DIRS_eq : MAX_DIRS = 4294967295 := by
  rw [MAX_DIRS, two_pow_32]

theorem MAX_FILES_eq : MAX_FILES = 4294967295 := by
  rw [MAX_FILES, two_pow_32]

/-- Decoding an identifier whose high half is zero and low half nonzero
yields the directory variant. -/
theorem from_ino_u64_dir (d : Nat) (h1 : 0 < d) (h2 : d < 2 ^ 32) :
    Inode.from_ino_u64 d = some (Inode.dir ⟨d⟩) := by
  rw [Inode.from_ino_u64, Nat.div_eq_of_lt h2, Nat.mod_eq_of_lt h2]
  simp [Nat.pos_iff_ne_zero.mp h1]

/-- Decoding an identifier with nonzero high half yields the file variant. -/
theorem from_ino_u64_file (p f : Nat) (hp : p < 2 ^ 32) (hf1 : 0 < f)
    (hf2 : f < 2 ^ 32) :
    Inode.from_ino_u64 (f * 2 ^ 32 + p) = some (Inode.file ⟨⟨p⟩, f⟩) := by
  have hmod : (f * 2 ^ 32 + p) % 2 ^ 32 = p := by
    rw [Nat.mul_comm f (2 ^ 32), Nat.mul_add_mod, Nat.mod_eq_of_lt hp]
  have hdiv : (f * 2 ^ 32 + p) / 2 ^ 32 = f := by
    rw [Nat.mul_comm f (2 ^ 32), Nat.mul_add_div (by positivity),
      Nat.div_eq_of_lt hp, Nat.add_zero]
  rw [Inode.from_ino_u64, hdiv, hmod, Nat.mod_eq_of_lt hf2]
  simp [Nat.pos_iff_ne_zero.mp hf1]

/-- C1: on identifiers decoding to a Directory, `read` fails `EISDIR`; on a
File variant with file number other than 2 it fails `ENOENT`; on the file
it returns the suffix of `"Hello World!\n"` from the offset (offset 6 gives
`"World!\n"`, offset 13 the empty slice) — but an offset beyond the content
length 13 makes the slice expression panic instead of yielding an empty
slice, contradicting the claim. -/
theorem read_content_and_past_end :
    (TarpitFs.mk 3 1).read 2 0 = ReadReply.error Errno.EISDIR ∧
    (TarpitFs.mk 3 1).read (3 * 2 ^ 32 + 2) 0 = ReadReply.error Errno.ENOENT ∧
    (TarpitFs.mk 3 1).read (2 * 2 ^ 32 + 2) 6 = ReadReply.data "World!\n".toList ∧
    (TarpitFs.mk 3 1).read (2 * 2 ^ 32 + 2) 13 = ReadReply.data [] ∧
    (TarpitFs.mk 3 1).read (2 * 2 ^ 32 + 2) 14 = ReadReply.panic := by
  decide

/-- C2: with `num_dirs = 3`, `getattr` on directory numbers `num_dirs + 2`
and beyond fails `ENOENT` as claimed, but the treatment of `num_dirs + 1`
is inconsistent: `lookup` of `"pit003"` under the root returns the entry
with inode 4 (= `num_dirs + 1`) and `readdir` accepts inode 4, yet
`getattr` on inode 4 fails `ENOENT`, refuting the claimed consistency. -/
theorem boundary_treatment_inconsistent :
    (TarpitFs.mk 3 1).getattr 5 = AttrReply.error Errno.ENOENT ∧
    (TarpitFs.mk 3 1).lookup 1 "pit003".toList = EntryReply.entry (dir_attr ⟨4⟩) ∧
    (TarpitFs.mk 3 1).readdir 4 0 ≠ DirReply.error Errno.ENOENT ∧
    (TarpitFs.mk 3 1).getattr 4 = AttrReply.error Errno.ENOENT := by
  decide

/-- C3 counterexample: the file encoder accepts file number 0
(`0 ≤ MAX_FILES`), but the produced identifier decodes to the Directory
variant of the parent, not to `File(parent, 0)`. -/
theorem encode_file_zero_decodes_as_directory :
    FileInode.from_number ⟨1⟩ 0 = some ⟨⟨1⟩, 0⟩ ∧
    Inode.from_ino_u64 (FileInode.toU64 ⟨⟨1⟩, 0⟩) = some (Inode.dir ⟨1⟩) := by
  decide

/-- C3 (amended): the round trip holds for nonzero numbers: for
`1 ≤ n ≤ MAX_DIRS` the directory encoding decodes back to `Directory(n)`,
and for `p ≤ MAX_DIRS`, `1 ≤ f ≤ MAX_FILES` the file encoding decodes back
to `File(p, f)`. -/
theorem inode_codec_roundtrip (n p f : Nat) (hn1 : 1 ≤ n) (hn2 : n ≤ MAX_DIRS)
    (hp : p ≤ MAX_DIRS) (hf1 : 1 ≤ f) (hf2 : f ≤ MAX_FILES) :
    DirInode.from_number n = some ⟨n⟩ ∧
    Inode.from_ino_u64 (DirInode.toU64 ⟨n⟩) = some (Inode.dir ⟨n⟩) ∧
    FileInode.from_number ⟨p⟩ f = some ⟨⟨p⟩, f⟩ ∧
    Inode.from_ino_u64 (FileInode.toU64 ⟨⟨p⟩, f⟩) = some (Inode.file ⟨⟨p⟩, f⟩) := by
  rw [MAX_DIRS_eq] at hn2 hp
  rw [MAX_FILES_eq] at hf2
  refine ⟨?_, ?_, ?_, ?_⟩
  · rw [DirInode.from_number, if_neg (by rw [MAX_DIRS_eq]; omega)]
  · exact from_ino_u64_dir n (by omega) (by rw [two_pow_32]; omega)
  · rw [FileInode.from_number, if_neg (by rw [MAX_FILES_eq]; omega)]
  · exact from_ino_u64_file p f (by rw [two_pow_32]; omega) (by omega)
      (by rw [two_pow_32]; omega)

/-- C3 witness. -/
theorem inode_codec_roundtrip_example :
    DirInode.from_number 5 = some ⟨5⟩ ∧
    Inode.from_ino_u64 (DirInode.toU64 ⟨5⟩) = some (Inode.dir ⟨5⟩) ∧
    FileInode.from_number ⟨7⟩ 2 = some ⟨⟨7⟩, 2⟩ ∧
    Inode.from_ino_u64 (FileInode.toU64 ⟨⟨7⟩, 2⟩) = some (Inode.file ⟨⟨7⟩, 2⟩) :=
  inode_codec_roundtrip 5 7 2 (by decide) (by decide) (by decide) (by decide)
    (by decide)

/-- C4 counterexample: `getattr` on identifier 0 does not reply `ENOENT`. -/
theorem getattr_zero_not_enoent :
    (TarpitFs.mk 3 1).getattr 0 ≠ AttrReply.error Errno.ENOENT := by
  decide

/-- C4 (amended): a request carrying identifier 0 trips the decode
assertion (`assert!(dir_number != 0)`), so `getattr` panics rather than
replying Not-Found, for every configuration. -/
theorem getattr_zero_panics (d f : Nat) :
    (TarpitFs.mk d f).getattr 0 = AttrReply.panic := rfl

/-- C5 counterexample: with `num_dirs = 3` the identifier with parent
directory number 999 (far beyond `num_dirs + 1 = 4`) and file number 2 is
answered with attributes by `getattr`, not `ENOENT`. -/
theorem getattr_orphan_file_not_enoent :
    (TarpitFs.mk 3 10).getattr (2 * 2 ^ 32 + 999) ≠ AttrReply.error Errno.ENOENT := by
  decide

/-- C5 (amended): `getattr` on a File identifier validates only the file
number against `num_files`; the parent directory half is never checked, so
identifiers whose parent is 0 or beyond `num_dirs + 1` still succeed with
attributes. -/
theorem getattr_file_ignores_parent (fs : TarpitFs) (p f : Nat)
    (hp : p < 2 ^ 32) (hf1 : 1 ≤ f) (hf2 : f < 2 ^ 32) (hfn : f ≤ fs.num_files)
    (_hbad : p = 0 ∨ fs.num_dirs + 1 < p) :
    fs.getattr (f * 2 ^ 32 + p) = AttrReply.attr (file_attr ⟨⟨p⟩, f⟩) := by
  rw [TarpitFs.getattr, from_ino_u64_file p f hp (by omega) hf2]
  simp [TarpitFs.inode_attr, hfn]

/-- C5 witness. -/
theorem getattr_file_ignores_parent_example :
    (TarpitFs.mk 3 10).getattr (2 * 2 ^ 32 + 999) =
      AttrReply.attr (file_attr ⟨⟨999⟩, 2⟩) :=
  getattr_file_ignores_parent ⟨3, 10⟩ 999 2 (by norm_num) (by norm_num)
    (by norm_num) (by norm_num) (Or.inr (by norm_num))

theorem mem_rustRange (lo hi x : Nat) : x ∈ rustRange lo hi ↔ lo ≤ x ∧ x < hi := by
  simp only [rustRange, List.mem_map, List.mem_range]
  constructor
  · rintro ⟨i, hi, rfl⟩; omega
  · rintro ⟨h1, h2⟩; exact ⟨x - lo, by omega, by omega⟩

theorem rustRange_length (lo hi : Nat) : (rustRange lo hi).length = hi - lo := by
  simp [rustRange]

theorem optMap_eq_some_map {α β : Type} (f : α → Option β) (g : α → β) :
    ∀ l : List α, (∀ a ∈ l, f a = some (g a)) → optMap f l = some (l.map g) := by
  intro l
  induction l with
  | nil => intro _; rfl
  | cons a as ih =>
    intro h
    rw [optMap, h a (by simp), ih (fun x hx => h x (by simp [hx]))]
    simp

theorem optMap_eq_none {α β : Type} (f : α → Option β) (a : α) :
    ∀ l : List α, a ∈ l → f a = none → optMap f l = none := by
  intro l
  induction l with
  | nil => simp
  | cons b bs ih =>
    intro hmem hfa
    rcases List.mem_cons.mp hmem with h | h
    · subst h; simp [optMap, hfa]
    · rw [optMap]
      match hfb : f b with
      | none => rfl
      | some c => rw [ih h hfa]; rfl

/-- For `num_dirs` below the last representable directory number, the root
entry list is `.` and `..` followed by the subdirectories `1..=num_dirs`
(inode `num + 1`, name `pitNNN`). -/
theorem root_entries_eq (fs : TarpitFs) (hmax : fs.num_dirs + 1 ≤ MAX_DIRS) :
    fs.root_entries = some
      ((1, FileType.Directory, ".".toList) ::
       (1, FileType.Directory, "..".toList) ::
       (rustRange 1 (fs.num_dirs + 1)).map
         (fun num => (num + 1, FileType.Directory, dir_name num))) := by
  rw [TarpitFs.root_entries,
    optMap_eq_some_map _ (fun num => (num + 1, FileType.Directory, dir_name num)) _ ?_]
  · rfl
  · intro a ha
    have hb := (mem_rustRange 1 (fs.num_dirs + 1) a).mp ha
    rw [TarpitFs.dir_num_to_dirent, TarpitFs.dir_num_to_inode, if_pos (by omega),
      DirInode.from_number, if_neg (by omega)]
    rfl

/-- At `num_dirs = MAX_DIRS` the root entry list construction panics: the
last subdirectory would need inode number `MAX_DIRS + 1 = 2^32`, which
`DirInode::from_number` rejects and `dir_num_to_dirent` unwraps. -/
theorem root_entries_max_none (fs : TarpitFs) (hmax : fs.num_dirs = MAX_DIRS) :
    fs.root_entries = none := by
  rw [TarpitFs.root_entries,
    optMap_eq_none _ MAX_DIRS _ ((mem_rustRange _ _ _).mpr
      (by rw [hmax, MAX_DIRS_eq]; omega)) ?_]
  · rfl
  · rw [TarpitFs.dir_num_to_dirent, TarpitFs.dir_num_to_inode,
      if_pos (by omega), DirInode.from_number, if_pos (by omega)]
    rfl

/-- `readdir` on the root inode 1 dispatches to the root entry list. -/
theorem readdir_root_eq (fs : TarpitFs) (off : Int) :
    fs.readdir 1 off =
      match fs.root_entries with
      | none => DirReply.panic
      | some entries => DirReply.ok (emitFrom entries off) := by
  have h : Inode.from_ino_u64 1 = some (Inode.dir ⟨1⟩) := by decide
  rw [TarpitFs.readdir, h]
  rfl

/-- `readdir` on a valid subdirectory inode `d` (`2 ≤ d ≤ num_dirs + 1`)
lists `.`, `..` (pointing at the root) and `hello.txt`. -/
theorem readdir_subdir_eq (fs : TarpitFs) (d : Nat) (off : Int) (h1 : 2 ≤ d)
    (h2 : d ≤ fs.num_dirs + 1) (h32 : d < 2 ^ 32) :
    fs.readdir d off = DirReply.ok (emitFrom
      [(d, FileType.Directory, ".".toList),
       (1, FileType.Directory, "..".toList),
       (2 * 2 ^ 32 + d, FileType.RegularFile, "hello.txt".toList)] off) := by
  rw [TarpitFs.readdir, from_ino_u64_dir d (by omega) h32]
  have hne : (⟨d⟩ : DirInode).num ≠ 1 := by simp [DirInode.num]; omega
  simp only [if_neg hne, if_pos (show (⟨d⟩ : DirInode).num ≤ fs.num_dirs + 1 from h2)]
  rw [FileInode.from_number, if_neg (by rw [MAX_FILES_eq]; omega)]
  rfl

/-- `readdir` on a File identifier (nonzero high half) fails `ENOTDIR`. -/
theorem readdir_file_enotdir (fs : TarpitFs) (ino : Nat) (off : Int)
    (h : ino / 2 ^ 32 % 2 ^ 32 ≠ 0) :
    fs.readdir ino off = DirReply.error Errno.ENOTDIR := by
  rw [TarpitFs.readdir, Inode.from_ino_u64, if_neg h]

/-- The entry list C6 claims for the root: `.`, `..`, then one Directory
entry per subdirectory number `1..=num_dirs` in ascending order (inode
`j + 2` for the subdirectory numbered `j + 1`). -/
def rootListing (fs : TarpitFs) : List (Nat × FileType × List Char) :=
  (1, FileType.Directory, ".".toList) ::
  (1, FileType.Directory, "..".toList) ::
  (List.range fs.num_dirs).map
    (fun j => (j + 2, FileType.Directory, dir_name (j + 1)))

/-- The entry list C6 claims for a subdirectory with inode `d`: `.`, `..`
(pointing at the root) and the single file `hello.txt`. -/
def subdirListing (d : Nat) : List (Nat × FileType × List Char) :=
  [(d, FileType.Directory, ".".toList),
   (1, FileType.Directory, "..".toList),
   (2 * 2 ^ 32 + d, FileType.RegularFile, "hello.txt".toList)]

/-- C6 counterexample: at `num_dirs = MAX_DIRS` (a configuration the
builder accepts) the root directory is accepted by `readdir` but the call
panics instead of emitting the claimed entry list. -/
theorem readdir_root_panics_at_max_dirs :
    (TarpitFs.mk MAX_DIRS 1).readdir 1 0 = DirReply.panic := by
  rw [readdir_root_eq, root_entries_max_none _ rfl]

/-- C6 (amended): provided `num_dirs + 1 ≤ MAX_DIRS`, `readdir` on a File
identifier fails `ENOTDIR`; on the root it emits, from the claimed full
entry list, exactly the entries at indices `resume_offset` and beyond,
each paired with its own index + 1 as resumption token; and likewise on
every valid subdirectory with its three-entry list. -/
theorem readdir_listing_pagination (fs : TarpitFs)
    (hmax : fs.num_dirs + 1 ≤ MAX_DIRS) :
    (∀ ino off, ino / 2 ^ 32 % 2 ^ 32 ≠ 0 →
      fs.readdir ino off = DirReply.error Errno.ENOTDIR) ∧
    (∀ off, fs.readdir 1 off = DirReply.ok (emitFrom (rootListing fs) off)) ∧
    (∀ d off, 2 ≤ d → d ≤ fs.num_dirs + 1 →
      fs.readdir d off = DirReply.ok (emitFrom (subdirListing d) off)) := by
  refine ⟨fun ino off h => readdir_file_enotdir fs ino off h, fun off => ?_, ?_⟩
  · rw [readdir_root_eq, root_entries_eq fs hmax]
    have hlist : (rustRange 1 (fs.num_dirs + 1)).map
        (fun num => (num + 1, FileType.Directory, dir_name num)) =
        (List.range fs.num_dirs).map
          (fun j => (j + 2, FileType.Directory, dir_name (j + 1))) := by
      rw [rustRange, Nat.add_sub_cancel, List.map_map]
      refine List.map_congr_left fun j _ => ?_
      simp [Function.comp, Nat.add_comm 1 j]
    rw [rootListing, ← hlist]
  · intro d off h1 h2
    rw [readdir_subdir_eq fs d off h1 h2 (by rw [MAX_DIRS_eq] at hmax; rw [two_pow_32]; omega)]
    rfl

/-- C6 witness: resuming the root listing of a 3-directory tree at offset 2
emits exactly the last three entries with tokens 3, 4, 5. -/
theorem readdir_listing_pagination_example :
    (TarpitFs.mk 3 1).readdir 1 2 =
      DirReply.ok [(2, 3, FileType.Directory, "pit001".toList),
                   (3, 4, FileType.Directory, "pit002".toList),
                   (4, 5, FileType.Directory, "pit003".toList)] :=
  ((readdir_listing_pagination ⟨3, 1⟩ (by decide)).2.1 2).trans (by decide)

/-- C8: the builder accepts `num_dirs = MAX_DIRS = 2^32 - 1`, yet with that
accepted count `readdir` on the root hits an encoding failure at request
time (the unwrap in `dir_num_to_dirent` panics on directory number
`MAX_DIRS`, whose inode would be `2^32`), refuting the claim that accepted
counts never hit request-time encoding failures. -/
theorem builder_accepts_count_that_panics_readdir :
    (TarpitBuilder.default.dirs MAX_DIRS).map TarpitBuilder.build =
      some ⟨MAX_DIRS, 10⟩ ∧
    (TarpitFs.mk MAX_DIRS 10).readdir 1 0 = DirReply.panic := by
  refine ⟨rfl, ?_⟩
  rw [readdir_root_eq, root_entries_max_none _ rfl]

theorem emitFrom_eq_nil (entries : List (Nat × FileType × List Char))
    (off : Int) (h : entries.length ≤ i64_as_usize off) :
    emitFrom entries off = [] := by
  rw [emitFrom, List.drop_eq_nil_of_le (by rw [List.enum_length]; exact h)]
  rfl

/-- C10 counterexample: at `num_dirs = MAX_DIRS` the root is a valid
directory identifier, yet `readdir` with the negative offset `-1` panics
while building the entry list instead of replying ok with zero entries. -/
theorem readdir_negative_offset_panics_at_max_dirs :
    (TarpitFs.mk MAX_DIRS 1).readdir 1 (-1) = DirReply.panic := by
  rw [readdir_root_eq, root_entries_max_none _ rfl]

/-- C10 (amended): provided `num_dirs + 1 ≤ MAX_DIRS` (so the entry list
can be built), `readdir` on any valid directory identifier with a negative
resume offset replies ok with zero entries: the `i64` → `usize` conversion
turns the offset into an index of at least `2^63`, past the whole list. -/
theorem readdir_negative_offset_empty (fs : TarpitFs) (d : Nat) (off : Int)
    (hmax : fs.num_dirs + 1 ≤ MAX_DIRS) (hd1 : 1 ≤ d)
    (hd2 : d ≤ fs.num_dirs + 1) (hoff1 : -(2 ^ 63) ≤ off) (hoff2 : off < 0) :
    fs.readdir d off = DirReply.ok [] := by
  rw [MAX_DIRS_eq] at hmax
  have hbig : 9223372036854775808 ≤ i64_as_usize off := by
    rw [i64_as_usize]
    have h64 : ((2 : Int) ^ 64) = 18446744073709551616 := by norm_num
    have h63 : ((2 : Int) ^ 63) = 9223372036854775808 := by norm_num
    rw [h64]; rw [h63] at hoff1
    omega
  rcases Nat.lt_or_ge d 2 with hd | hd
  · have hd1' : d = 1 := by omega
    subst hd1'
    rw [readdir_root_eq, root_entries_eq fs (by rw [MAX_DIRS_eq]; omega)]
    show DirReply.ok (emitFrom _ off) = DirReply.ok []
    rw [emitFrom_eq_nil _ _ (by
      simp only [List.length_cons, List.length_map, rustRange_length]
      omega)]
  · rw [readdir_subdir_eq fs d off hd hd2 (by rw [two_pow_32]; omega),
      emitFrom_eq_nil _ _ (by simp only [List.length_cons, List.length_nil]; omega)]

/-- C10 witness. -/
theorem readdir_negative_offset_example :
    (TarpitFs.mk 3 1).readdir 2 (-5) = DirReply.ok [] :=
  readdir_negative_offset_empty ⟨3, 1⟩ 2 (-5) (by decide) (by decide)
    (by decide) (by decide) (by decide)

end Tarpit
